import Mathlib

/-!
# pixi-build-autotools: verification of the reference generator

Shallow embedding of `examples/pixi-build-autotools/src/main.c`.

* A C string is the list of its characters before the terminating NUL.
* A nullable `char *` is an `Option CStr`; `none` is `NULL`.
* The environment (`Env`) holds everything the program reads but does not
  decide: the build configuration (`_WIN32`), the filesystem answer of `stat`,
  the outcome of every allocation, and the external library calls.
* Effects are recorded as a trace of events in `State`.
-/

set_option autoImplicit false

namespace Autotools

/-- A C string: the characters before the terminator. -/
abbrev CStr := List Char

/-! ## Data model of the library objects -/

/-- Modelled from the spec: one entry of the source list of an intermediate
recipe (`SourceLocation{ path, is_url, checksum, is_git }`); the type is
declared in `pixi-build-backend.h`, which is not part of the sources. -/
structure SourceLocation where
  path : CStr
  is_url : Bool
  checksum : Option CStr
  is_git : Bool
deriving DecidableEq, Repr

/-- Modelled from the spec: the intermediate recipe, a build script plus an
ordered list of source locations (`IntermediateRecipeHandle_t`). -/
structure IntermediateRecipe where
  build_script : CStr
  sources : List SourceLocation
deriving DecidableEq, Repr

/-- Modelled from the spec: the generated recipe envelope, one owned
intermediate recipe and two glob lists in insertion order
(`GeneratedRecipeHandle_t`). -/
structure GeneratedRecipe where
  intermediate : Option IntermediateRecipe
  build_globs : List CStr
  metadata_globs : List CStr
deriving DecidableEq, Repr

/-! ## Environment, events and state -/

/-- What the program observes but does not control. -/
structure Env where
  /-- Whether the program was compiled with `_WIN32` defined. -/
  win32 : Bool
  /-- Whether the filesystem holds a directory under a (non-empty) path. -/
  is_dir : CStr → Bool
  /-- Whether the n-th call of `malloc` made by the program succeeds. -/
  malloc_ok : Nat → Bool
  /-- Whether the n-th call of `fopen` on the log file succeeds. -/
  fopen_ok : Nat → Bool
  /-- What `pbb_intermediate_recipe_new` returns: `none` on allocation
  failure, else the fresh recipe with whatever defaults the library puts in. -/
  recipe_new : Option IntermediateRecipe
  /-- Whether `pbb_generated_recipe_new_empty` succeeds. -/
  generated_new_ok : Bool
  /-- What `pbb_intermediate_recipe_to_yaml` returns for a recipe. -/
  to_yaml : IntermediateRecipe → Option CStr
  /-- Whether `calloc` of the generator state succeeds. -/
  calloc_ok : Bool
  /-- Whether `pbb_generator_new` succeeds. -/
  generator_new_ok : Bool
  /-- What `pbb_cli_run` returns for an argument vector. -/
  cli_run : List CStr → Option CStr

/-- Observable effects of the program, in the order they happen. -/
inductive Event where
  | malloc (size : Nat) (ok : Bool)
  | free_str (s : CStr)
  | stderr (msg : CStr)
  | log (msg : CStr)
  | recipe_new (ok : Bool)
  | recipe_release
  | generated_new (ok : Bool)
  | state_calloc (ok : Bool)
  | state_release
  | generator_new (ok : Bool)
  | cli_run (args : List CStr)
deriving DecidableEq, Repr

/-- Mutable state threaded through the program. -/
structure State where
  /-- Number of `malloc` calls made so far. -/
  mallocs : Nat
  /-- Number of `fopen` calls made so far. -/
  fopens : Nat
  /-- Effects so far, oldest first. -/
  trace : List Event
deriving DecidableEq, Repr

/-- The state at program start. -/
def State.init : State := { mallocs := 0, fopens := 0, trace := [] }

/-- Record one event. -/
def State.emit (s : State) (e : Event) : State :=
  { s with trace := s.trace ++ [e] }

/-! ## C library primitives -/

/-- `malloc(size)`: success is decided by the environment. -/
def malloc (env : Env) (s : State) (size : Nat) : Bool × State :=
  (env.malloc_ok s.mallocs,
   { s with mallocs := s.mallocs + 1,
            trace := s.trace ++ [Event.malloc size (env.malloc_ok s.mallocs)] })

/-- The test `stat(path, &st) == 0 && S_ISDIR(st.st_mode)` of main.c 42 (and
its `_stat` twin of line 37): the empty path names no file (`ENOENT`), any
other path is answered by the filesystem. -/
def stat_is_dir (env : Env) (path : CStr) : Bool :=
  !path.isEmpty && env.is_dir path

/-- `strrchr(s, c)` for a non-NUL `c`: index of the last occurrence. -/
def strrchr : CStr → Char → Option Nat
  | [], _ => none
  | x :: xs, c =>
    match strrchr xs c with
    | some i => some (i + 1)
    | none => if x = c then some 0 else none

/-! ## main.c -/

/-- `dup_cstr` (main.c 15-23). -/
def dup_cstr (env : Env) (s : State) (message : CStr) : Option CStr × State :=
  let length := message.length + 1
  let r := malloc env s length
  if r.1 then (some message, r.2) else (none, r.2)

/-- The loop of main.c 31-33: skip repeated leading "./" segments. -/
def skip_dot_slash : CStr → CStr
  | '.' :: '/' :: rest => skip_dot_slash rest
  | p => p

/-- Lines 47-53 of main.c: `last_forward` after the optional `_WIN32` merge
with `last_back`. -/
def last_separator (win32 : Bool) (p : CStr) : Option Nat :=
  let last_forward := strrchr p '/'
  if win32 then
    match strrchr p '\\' with
    | some last_back =>
      match last_forward with
      | none => some last_back
      | some f => if last_back > f then some last_back else some f
    | none => last_forward
  else last_forward

/-- `manifest_dir_from_path` (main.c 25-72). -/
def manifest_dir_from_path (env : Env) (s : State) (manifest_path : Option CStr) :
    Option CStr × State :=
  match manifest_path with
  | none => dup_cstr env s ".".toList
  | some [] => dup_cstr env s ".".toList
  | some (c :: cs) =>
    let p := skip_dot_slash (c :: cs)
    if stat_is_dir env p then dup_cstr env s p
    else
      match last_separator env.win32 p with
      | none => dup_cstr env s ".".toList
      | some len =>
        if len ≤ 0 then dup_cstr env s ".".toList
        else
          let r := malloc env s (len + 1)
          if r.1 then (some (p.take len), r.2) else (none, r.2)

/-- `log_message` (main.c 74-85): best-effort append of one record to the log
file; nothing happens when the file cannot be opened. -/
def log_message (env : Env) (s : State) (text : CStr) : State :=
  let s1 := { s with fopens := s.fopens + 1 }
  if env.fopen_ok s.fopens then s1.emit (Event.log (text ++ ['\n'])) else s1

/-- The generator state, `struct autotools_generator` (main.c 11-13): no
fields. -/
structure autotools_generator where
deriving DecidableEq, Repr

/-- `autotools_generator_release` (main.c 87-90): frees the state. -/
def autotools_generator_release (s : State) (_ptr : autotools_generator) : State :=
  s.emit Event.state_release

/-- Modelled from the spec: `pbb_intermediate_recipe_new`, "new() -> Recipe |
allocation-failure"; the library function is declared in the missing header. -/
def pbb_intermediate_recipe_new (env : Env) (s : State) :
    Option IntermediateRecipe × State :=
  (env.recipe_new, s.emit (Event.recipe_new env.recipe_new.isSome))

/-- Modelled from the spec: `pbb_intermediate_recipe_set_build_script`, "total
replacement" of the build script. -/
def pbb_intermediate_recipe_set_build_script (r : IntermediateRecipe) (script : CStr) :
    IntermediateRecipe :=
  { r with build_script := script }

/-- Modelled from the spec: `pbb_intermediate_recipe_clear_sources`, "empties"
the source list. -/
def pbb_intermediate_recipe_clear_sources (r : IntermediateRecipe) : IntermediateRecipe :=
  { r with sources := [] }

/-- Modelled from the spec: `pbb_intermediate_recipe_add_source_path`,
"appends one entry". -/
def pbb_intermediate_recipe_add_source_path (r : IntermediateRecipe) (path : CStr)
    (is_url : Bool) (checksum : Option CStr) (is_git : Bool) : IntermediateRecipe :=
  { r with sources := r.sources ++
      [{ path := path, is_url := is_url, checksum := checksum, is_git := is_git }] }

/-- Modelled from the spec: `pbb_intermediate_recipe_release`, frees the
recipe. -/
def pbb_intermediate_recipe_release (s : State) (_r : IntermediateRecipe) : State :=
  s.emit Event.recipe_release

/-- Modelled from the spec: `pbb_generated_recipe_new_empty`, "new_empty() ->
Envelope | allocation-failure", "allocated empty". -/
def pbb_generated_recipe_new_empty (env : Env) (s : State) :
    Option GeneratedRecipe × State :=
  (if env.generated_new_ok then
     some { intermediate := none, build_globs := [], metadata_globs := [] }
   else none,
   s.emit (Event.generated_new env.generated_new_ok))

/-- Modelled from the spec: `pbb_generated_recipe_set_intermediate`, transfers
the recipe into the envelope, replacing a previous one. -/
def pbb_generated_recipe_set_intermediate (g : GeneratedRecipe) (r : IntermediateRecipe) :
    GeneratedRecipe :=
  { g with intermediate := some r }

/-- Modelled from the spec: `pbb_generated_recipe_add_build_glob`, append-only,
call order preserved. -/
def pbb_generated_recipe_add_build_glob (g : GeneratedRecipe) (pattern : CStr) :
    GeneratedRecipe :=
  { g with build_globs := g.build_globs ++ [pattern] }

/-- Modelled from the spec: `pbb_generated_recipe_add_metadata_glob`,
append-only, call order preserved. -/
def pbb_generated_recipe_add_metadata_glob (g : GeneratedRecipe) (pattern : CStr) :
    GeneratedRecipe :=
  { g with metadata_globs := g.metadata_globs ++ [pattern] }

/-- Result of an operation of the table: the returned error string, the
contents of the out-parameter afterwards, and the state. -/
structure OpResult (α : Type) where
  error : Option CStr
  out : α
  state : State

/-- The build script of main.c 116-119. -/
def script : CStr :=
  ("./configure --prefix=\"$PREFIX\"\n" ++
   "make -j\"$\x7bPBB_PARALLEL_BUILD_JOBS:-1\x7d\"\n" ++
   "make install\n").toList

/-- `autotools_generate_recipe` (main.c 92-164). `out_recipe` is what the
out-parameter holds before the call. -/
def autotools_generate_recipe (env : Env) (s : State) (_ptr : autotools_generator)
    (_project_model_json _config_json : Option CStr) (manifest_path : Option CStr)
    (_host_platform : Option CStr) (_editable : Bool) (_variants_json : Option CStr)
    (out_recipe : Option GeneratedRecipe) : OpResult (Option GeneratedRecipe) :=
  let r0 := pbb_intermediate_recipe_new env s
  match r0.1 with
  | none =>
    let s1 := r0.2.emit (Event.stderr "autotools: failed to allocate intermediate recipe\n".toList)
    let e := dup_cstr env s1 "autotools: failed to allocate intermediate recipe".toList
    { error := e.1, out := out_recipe, state := e.2 }
  | some recipe0 =>
    let recipe1 := pbb_intermediate_recipe_set_build_script recipe0 script
    let d := manifest_dir_from_path env r0.2 manifest_path
    match d.1 with
    | none =>
      let s2 := pbb_intermediate_recipe_release d.2 recipe1
      let e := dup_cstr env s2 "autotools: failed to determine source directory".toList
      { error := e.1, out := out_recipe, state := e.2 }
    | some source_dir =>
      let s3 := log_message env d.2
        ("generate_recipe manifest_path=".toList ++ manifest_path.getD "(null)".toList ++
          " source_dir=".toList ++ source_dir)
      let recipe2 := pbb_intermediate_recipe_clear_sources recipe1
      let recipe3 := pbb_intermediate_recipe_add_source_path recipe2 source_dir false none false
      let s4 := s3.emit (Event.free_str source_dir)
      let s5 :=
        match env.to_yaml recipe3 with
        | some recipe_yaml =>
          (log_message env s4 ("intermediate_recipe:\n".toList ++ recipe_yaml)).emit
            (Event.free_str recipe_yaml)
        | none => s4
      let g := pbb_generated_recipe_new_empty env s5
      match g.1 with
      | none =>
        let s6 := g.2.emit (Event.stderr "autotools: failed to allocate generated recipe\n".toList)
        let s7 := pbb_intermediate_recipe_release s6 recipe3
        let e := dup_cstr env s7 "autotools: failed to allocate generated recipe".toList
        { error := e.1, out := out_recipe, state := e.2 }
      | some generated0 =>
        let generated1 := pbb_generated_recipe_set_intermediate generated0 recipe3
        let generated2 := pbb_generated_recipe_add_build_glob generated1 "**".toList
        let generated3 := pbb_generated_recipe_add_metadata_glob generated2 "pixi.toml".toList
        let s8 := log_message env g.2 "generate_recipe completed successfully".toList
        { error := none, out := some generated3, state := s8 }

/-- `autotools_extract_input_globs` (main.c 166-180). The second component of
`out` is the generator state after the call. -/
def autotools_extract_input_globs (s : State) (ptr : autotools_generator)
    (_config_json _workdir : Option CStr) (_editable : Bool) (_out_globs : Option CStr) :
    OpResult (Option CStr × autotools_generator) :=
  { error := none, out := (none, ptr), state := s }

/-- `autotools_default_variants` (main.c 182-192). The second component of
`out` is the generator state after the call. -/
def autotools_default_variants (s : State) (ptr : autotools_generator)
    (_host_platform : Option CStr) (_out_variants : Option CStr) :
    OpResult (Option CStr × autotools_generator) :=
  { error := none, out := (none, ptr), state := s }

/-- `EXIT_SUCCESS` of stdlib.h. -/
def EXIT_SUCCESS : Nat := 0

/-- `EXIT_FAILURE` of stdlib.h. -/
def EXIT_FAILURE : Nat := 1

/-- `main` (main.c 194-239); `argc` is the length of `argv`. Returns the exit
status and the final state. -/
def main (env : Env) (s : State) (argv : List CStr) : Nat × State :=
  let s1 := log_message env s
    ("pixi-build-autotools backend starting (argc=".toList ++ (Nat.repr argv.length).toList ++
      ")".toList)
  let s2 := s1.emit (Event.state_calloc env.calloc_ok)
  if !env.calloc_ok then
    (EXIT_FAILURE, s2.emit (Event.stderr "autotools: failed to allocate generator state\n".toList))
  else
    let state : autotools_generator := {}
    let s3 := s2.emit (Event.generator_new env.generator_new_ok)
    if !env.generator_new_ok then
      let s4 := s3.emit (Event.stderr "autotools: failed to create generator handle\n".toList)
      (EXIT_FAILURE, autotools_generator_release s4 state)
    else
      let s5 := s3.emit (Event.cli_run argv)
      match env.cli_run argv with
      | some error =>
        let s6 := s5.emit
          (Event.stderr ("autotools backend failed: ".toList ++ error ++ "\n".toList))
        let s7 := log_message env s6 ("pbb_cli_run returned error: ".toList ++ error)
        (EXIT_FAILURE, s7.emit (Event.free_str error))
      | none =>
        (EXIT_SUCCESS, log_message env s5 "pbb_cli_run exited normally".toList)

/-! ## Specification vocabulary, example environments and proof devices -/

/-- Whether `c` is a path separator of the build: '/' always, and the
backslash too when compiled for Windows. -/
def is_sep (win32 : Bool) (c : Char) : Bool :=
  c == '/' || (win32 && c == '\\')

/-- Whether the last character of `p` satisfying `q` is at index `k`. -/
def last_at (q : Char → Bool) (p : CStr) (k : Nat) : Bool :=
  (p.drop k).head?.any q && (p.drop (k + 1)).all (fun c => !q c)

/-- A POSIX build where no path is a directory and every allocation and
library call succeeds. -/
def env_ok : Env :=
  { win32 := false, is_dir := fun _ => false, malloc_ok := fun _ => true,
    fopen_ok := fun _ => true,
    recipe_new := some { build_script := [], sources := [] },
    generated_new_ok := true, to_yaml := fun _ => none, calloc_ok := true,
    generator_new_ok := true, cli_run := fun _ => none }

/-- As `env_ok`, but every `malloc` of the program fails. -/
def env_oom : Env := { env_ok with malloc_ok := fun _ => false }

/-- As `env_ok`, but compiled for Windows. -/
def env_win : Env := { env_ok with win32 := true }

/-- As `env_ok`, but the path "somedir/" is an existing directory. -/
def env_dir : Env := { env_ok with is_dir := fun p => p == "somedir/".toList }

/-- As `env_dir`, but every `malloc` of the program fails. -/
def env_dir_oom : Env := { env_dir with malloc_ok := fun _ => false }

/-- The string `manifest_dir_from_path` copies into its result, as a function
of the build, the filesystem and the path (proof device). -/
def resolved_text (win32 : Bool) (is_dir : CStr → Bool) : Option CStr → CStr
  | none => ".".toList
  | some [] => ".".toList
  | some (c :: cs) =>
    if is_dir (skip_dot_slash (c :: cs)) then skip_dot_slash (c :: cs)
    else
      match last_separator win32 (skip_dot_slash (c :: cs)) with
      | none => ".".toList
      | some len => if len ≤ 0 then ".".toList else (skip_dot_slash (c :: cs)).take len

/-- Whether a path begins with a "./" segment. -/
def starts_dot_slash : CStr → Bool
  | '.' :: '/' :: _ => true
  | _ => false

/-- As `env_dir`, but only the first `malloc` of the program succeeds. -/
def env_dir_once : Env := { env_dir with malloc_ok := fun n => n == 0 }

/-- The envelope written by a successful generation for a resolved source
directory (proof device). -/
def success_envelope (source_dir : CStr) : GeneratedRecipe :=
  { intermediate := some
      { build_script := script,
        sources := [{ path := source_dir, is_url := false, checksum := none, is_git := false }] },
    build_globs := ["**".toList],
    metadata_globs := ["pixi.toml".toList] }

/-- Whether an event allocates or releases a recipe or an envelope. -/
def is_resource : Event → Bool
  | Event.recipe_new true => true
  | Event.recipe_release => true
  | Event.generated_new true => true
  | _ => false

/-- The allocations and releases of recipes and envelopes in a trace, in
order. -/
def resources (t : List Event) : List Event := t.filter is_resource

/-- The suffixes of a path that a single `*` may leave unconsumed: it consumes
any run of characters other than '/'. -/
def star_tails : CStr → List CStr
  | [] => [[]]
  | c :: t => (c :: t) :: (if c == '/' then [] else star_tails t)

/-- Modelled from the spec: the spec calls a glob a "file pattern" and leaves
matching to the host, whose matcher is not part of the sources. The
conventional reading is taken: `**` matches any run of characters, `*` any run
without '/', `?` one character other than '/', and every other character
matches itself. -/
def glob_match : CStr → CStr → Bool
  | [], s => s.isEmpty
  | '*' :: '*' :: p, s => s.tails.any (fun t => glob_match p t)
  | '*' :: p, s => (star_tails s).any (fun t => glob_match p t)
  | '?' :: p, c :: t => c != '/' && glob_match p t
  | a :: p, c :: t => a == c && glob_match p t
  | _ :: _, [] => false

/-- As `env_oom`, and the intermediate recipe cannot be allocated either. -/
def env_recipe_oom : Env := { env_oom with recipe_new := none }

/-- As `env_ok`, but `pbb_generator_new` fails. -/
def env_no_handle : Env := { env_ok with generator_new_ok := false }

/-- The events a run of `main` adds to the trace. -/
def main_events (env : Env) (s : State) (argv : List CStr) : List Event :=
  (main env s argv).2.trace.drop s.trace.length

/-! ## Lemmas and theorems -/

theorem last_separator_cons (w : Bool) (x : Char) (xs : CStr) :
    last_separator w (x :: xs) =
      match last_separator w xs with
      | some i => some (i + 1)
      | none => if is_sep w x then some 0 else none := by
  cases w
  · simp only [last_separator, strrchr, is_sep]
    cases strrchr xs '/' <;> simp
  · simp only [last_separator, strrchr, is_sep]
    cases hf : strrchr xs '/' <;> cases hb : strrchr xs '\\' <;> simp
    · by_cases h1 : x = '\\' <;> by_cases h2 : x = '/' <;> simp [h1, h2]
    · by_cases h2 : x = '/' <;> simp [h2]
    · by_cases h1 : x = '\\' <;> simp [h1]
    · split <;> simp

theorem last_separator_eq_none (w : Bool) (p : CStr) :
    last_separator w p = none ↔ p.all (fun c => !is_sep w c) = true := by
  induction p with
  | nil => simp [last_separator, strrchr]
  | cons x xs ih =>
    rw [last_separator_cons]
    cases h : last_separator w xs with
    | none =>
      have hx := ih.mp h
      cases hq : is_sep w x <;> simp [hq, hx]
    | some i =>
      have hx : ¬ (xs.all (fun c => !is_sep w c) = true) := fun hh => by
        have := ih.mpr hh
        simp [h] at this
      simp
      intro _
      simpa using hx

theorem last_at_zero (q : Char → Bool) (x : Char) (xs : CStr) :
    last_at q (x :: xs) 0 = (q x && xs.all (fun c => !q c)) := by
  simp [last_at]

theorem last_at_succ (q : Char → Bool) (x : Char) (xs : CStr) (j : Nat) :
    last_at q (x :: xs) (j + 1) = last_at q xs j := by
  simp [last_at]

theorem last_separator_eq_some (w : Bool) (p : CStr) (k : Nat) :
    last_separator w p = some k ↔ last_at (is_sep w) p k = true := by
  induction p generalizing k with
  | nil => simp [last_separator, strrchr, last_at]
  | cons x xs ih =>
    rw [last_separator_cons]
    cases h : last_separator w xs with
    | none =>
      have hall := (last_separator_eq_none w xs).mp h
      cases k with
      | zero =>
        rw [last_at_zero, hall]
        cases hq : is_sep w x <;> simp
      | succ j =>
        rw [last_at_succ]
        have hno : ¬ (last_at (is_sep w) xs j = true) := fun hh => by
          have := (ih j).mpr hh
          simp [h] at this
        cases hq : is_sep w x <;> simp [hno]
    | some i =>
      have hx : ¬ (xs.all (fun c => !is_sep w c) = true) := fun hh => by
        have := (last_separator_eq_none w xs).mpr hh
        simp [h] at this
      cases k with
      | zero =>
        rw [last_at_zero]
        simp only [Bool.not_eq_true] at hx
        simp [hx]
      | succ j =>
        rw [last_at_succ, ← ih j, h]
        simp

theorem manifest_dir_from_path_fst (env : Env) (s : State) (m : Option CStr) :
    (manifest_dir_from_path env s m).1 =
      if env.malloc_ok s.mallocs then some (resolved_text env.win32 (stat_is_dir env) m)
      else none := by
  unfold manifest_dir_from_path resolved_text
  split
  · simp only [dup_cstr, malloc]; split <;> simp_all
  · simp only [dup_cstr, malloc]; split <;> simp_all
  · simp only [dup_cstr, malloc]
    split
    · split <;> simp_all
    · split
      · split <;> simp_all
      · split
        · split <;> simp_all
        · split <;> simp_all

theorem manifest_dir_from_path_mallocs (env : Env) (s : State) (m : Option CStr) :
    (manifest_dir_from_path env s m).2.mallocs = s.mallocs + 1 := by
  unfold manifest_dir_from_path
  split
  · simp only [dup_cstr, malloc]; split <;> rfl
  · simp only [dup_cstr, malloc]; split <;> rfl
  · simp only [dup_cstr, malloc]
    split
    · split <;> rfl
    · split
      · split <;> rfl
      · split
        · split <;> rfl
        · split <;> rfl

theorem skip_dot_slash_idem (p : CStr) : skip_dot_slash (skip_dot_slash p) = skip_dot_slash p := by
  induction p using skip_dot_slash.induct with
  | case1 rest ih => simpa [skip_dot_slash] using ih
  | case2 p h =>
    have : skip_dot_slash p = p := by
      unfold skip_dot_slash
      split
      · exact absurd rfl (h _)
      · rfl
    rw [this, this]

theorem skip_dot_slash_of_not_starts (p : CStr) (h : starts_dot_slash p = false) :
    skip_dot_slash p = p := by
  unfold skip_dot_slash
  split
  · simp [starts_dot_slash] at h
  · rfl

theorem starts_dot_slash_skip (p : CStr) : starts_dot_slash (skip_dot_slash p) = false := by
  induction p using skip_dot_slash.induct with
  | case1 rest ih => simpa [skip_dot_slash] using ih
  | case2 p h =>
    have hp : starts_dot_slash p = false := by
      unfold starts_dot_slash
      split
      · exact absurd rfl (h _)
      · rfl
    rw [skip_dot_slash_of_not_starts p hp]
    exact hp

theorem starts_dot_slash_take (p : CStr) (k : Nat) (h : starts_dot_slash p = false) :
    starts_dot_slash (p.take k) = false := by
  match p, k, h with
  | [], _, _ => simp [starts_dot_slash]
  | _ :: _, 0, _ => simp [starts_dot_slash]
  | [_], _ + 1, _ => simp [starts_dot_slash]
  | _ :: _ :: _, 1, _ => simp [starts_dot_slash]
  | a :: b :: r, n + 2, h =>
    simp only [List.take_succ_cons]
    unfold starts_dot_slash at h ⊢
    split
    · rename_i heq
      simp only [List.cons.injEq] at heq
      obtain ⟨rfl, rfl, _⟩ := heq
      simp at h
    · rfl

theorem starts_dot_slash_resolved (w : Bool) (f : CStr → Bool) (m : Option CStr) :
    starts_dot_slash (resolved_text w f m) = false := by
  unfold resolved_text
  split
  · decide
  · decide
  · split
    · exact starts_dot_slash_skip _
    · split
      · decide
      · split
        · decide
        · exact starts_dot_slash_take _ _ (starts_dot_slash_skip _)

theorem resolved_text_of_dir (env : Env) (d : CStr) (hs : starts_dot_slash d = false)
    (hd : stat_is_dir env d = true) :
    resolved_text env.win32 (stat_is_dir env) (some d) = d := by
  cases d with
  | nil => simp [stat_is_dir] at hd
  | cons c cs =>
    simp only [resolved_text]
    rw [skip_dot_slash_of_not_starts _ hs, if_pos hd]

/-- C1 (amended): file case of source-directory resolution. Let p be the
manifest path with its leading "./" segments removed. If p is not an existing
directory and the last path separator of p ('/', and in a Windows build also
the backslash) is at index k > 0, the result is the first k characters of p
when the allocation of the result succeeds, and null when it fails. -/
theorem manifest_dir_file_case (env : Env) (s : State) (m : CStr) (k : Nat)
    (hdir : stat_is_dir env (skip_dot_slash m) = false)
    (hlast : last_at (is_sep env.win32) (skip_dot_slash m) k = true)
    (hk : 0 < k) :
    (manifest_dir_from_path env s (some m)).1 =
      if env.malloc_ok s.mallocs then some ((skip_dot_slash m).take k) else none := by
  rw [manifest_dir_from_path_fst]
  cases m with
  | nil => simp [skip_dot_slash, last_at] at hlast
  | cons c cs =>
    have hsep := (last_separator_eq_some env.win32 _ k).mpr hlast
    have hk2 : ¬ (k ≤ 0) := by omega
    simp only [resolved_text, hdir, hsep, if_neg hk2]
    simp

/-- Witness of C1: "./a/b/manifest.toml" resolves to "a/b". -/
theorem manifest_dir_file_case_witness :
    (manifest_dir_from_path env_ok State.init (some "./a/b/manifest.toml".toList)).1 =
      some "a/b".toList :=
  (manifest_dir_file_case env_ok State.init "./a/b/manifest.toml".toList 3
    (by decide) (by decide) (by decide)).trans (by decide)

/-- C1 as stated fails twice. When the allocation of the result fails,
"./a/b/manifest.toml" (not a directory, last '/' at index 3 of "a/b/manifest.toml")
resolves to null. In a Windows build, "a/b\c" (not a directory, last '/' at
index 1) resolves to "a/b", not to its first character "a". -/
theorem manifest_dir_file_case_counterexample :
    (stat_is_dir env_oom (skip_dot_slash "./a/b/manifest.toml".toList) = false ∧
      last_at (fun c => c == '/') (skip_dot_slash "./a/b/manifest.toml".toList) 3 = true ∧
      (manifest_dir_from_path env_oom State.init (some "./a/b/manifest.toml".toList)).1 = none) ∧
    (stat_is_dir env_win (skip_dot_slash "a/b\\c".toList) = false ∧
      last_at (fun c => c == '/') (skip_dot_slash "a/b\\c".toList) 1 = true ∧
      (manifest_dir_from_path env_win State.init (some "a/b\\c".toList)).1 = some "a/b".toList ∧
      (skip_dot_slash "a/b\\c".toList).take 1 = "a".toList) := by
  decide

/-- C2 (amended): current-directory fallback. When the manifest path is null
or empty, or when the path without its leading "./" segments is not an existing
directory and either holds no path separator or has its last separator at
index 0, the result is "." when the allocation of the result succeeds, and
null when it fails. -/
theorem manifest_dir_current_dir (env : Env) (s : State) (m : Option CStr)
    (h : m = none ∨ m = some [] ∨
      ∃ p, m = some p ∧ stat_is_dir env (skip_dot_slash p) = false ∧
        ((skip_dot_slash p).all (fun c => !is_sep env.win32 c) = true ∨
          last_at (is_sep env.win32) (skip_dot_slash p) 0 = true)) :
    (manifest_dir_from_path env s m).1 =
      if env.malloc_ok s.mallocs then some ".".toList else none := by
  rw [manifest_dir_from_path_fst]
  have key : resolved_text env.win32 (stat_is_dir env) m = ".".toList := by
    rcases h with rfl | rfl | ⟨p, rfl, hdir, hsep⟩
    · rfl
    · rfl
    · cases p with
      | nil => rfl
      | cons c cs =>
        rcases hsep with hnone | hzero
        · have := (last_separator_eq_none env.win32 _).mpr hnone
          simp only [resolved_text, hdir, this]
          simp
        · have := (last_separator_eq_some env.win32 _ 0).mpr hzero
          simp only [resolved_text, hdir, this]
          simp
  rw [key]

/-- Witness of C2: null, "", "manifest.toml" and "/pixi.toml" resolve to ".". -/
theorem manifest_dir_current_dir_witness :
    (manifest_dir_from_path env_ok State.init none).1 = some ".".toList ∧
    (manifest_dir_from_path env_ok State.init (some "".toList)).1 = some ".".toList ∧
    (manifest_dir_from_path env_ok State.init (some "manifest.toml".toList)).1 =
      some ".".toList ∧
    (manifest_dir_from_path env_ok State.init (some "/pixi.toml".toList)).1 =
      some ".".toList :=
  ⟨(manifest_dir_current_dir env_ok State.init none (Or.inl rfl)).trans (by decide),
   (manifest_dir_current_dir env_ok State.init (some []) (Or.inr (Or.inl rfl))).trans
     (by decide),
   (manifest_dir_current_dir env_ok State.init (some "manifest.toml".toList)
     (Or.inr (Or.inr ⟨_, rfl, by decide, Or.inl (by decide)⟩))).trans (by decide),
   (manifest_dir_current_dir env_ok State.init (some "/pixi.toml".toList)
     (Or.inr (Or.inr ⟨_, rfl, by decide, Or.inr (by decide)⟩))).trans (by decide)⟩

/-- C2 as stated fails when the allocation of the result fails: the empty
manifest path and "manifest.toml" (no separator, not a directory) then resolve
to null, not to ".". -/
theorem manifest_dir_current_dir_counterexample :
    (manifest_dir_from_path env_oom State.init (some "".toList)).1 = none ∧
    stat_is_dir env_oom (skip_dot_slash "manifest.toml".toList) = false ∧
    (skip_dot_slash "manifest.toml".toList).all (fun c => !is_sep env_oom.win32 c) = true ∧
    (manifest_dir_from_path env_oom State.init (some "manifest.toml".toList)).1 = none := by
  decide

/-- C3 (amended): directory case. For every non-empty manifest path whose
form without leading "./" segments names an existing directory, the result is
that form, character for character, when the allocation of the result
succeeds, and null when it fails. -/
theorem manifest_dir_directory_case (env : Env) (s : State) (m : CStr) (hm : m ≠ [])
    (hdir : stat_is_dir env (skip_dot_slash m) = true) :
    (manifest_dir_from_path env s (some m)).1 =
      if env.malloc_ok s.mallocs then some (skip_dot_slash m) else none := by
  rw [manifest_dir_from_path_fst]
  cases m with
  | nil => exact absurd rfl hm
  | cons c cs => simp only [resolved_text, hdir, if_true]

/-- Witness of C3: with "somedir/" an existing directory, "./somedir/"
resolves to "somedir/", trailing slash kept. -/
theorem manifest_dir_directory_case_witness :
    (manifest_dir_from_path env_dir State.init (some "./somedir/".toList)).1 =
      some "somedir/".toList :=
  (manifest_dir_directory_case env_dir State.init "./somedir/".toList (by decide)
    (by decide)).trans (by decide)

/-- C3 as stated fails when the allocation of the result fails: "somedir/",
an existing directory, then resolves to null. -/
theorem manifest_dir_directory_case_counterexample :
    stat_is_dir env_dir_oom (skip_dot_slash "somedir/".toList) = true ∧
    (manifest_dir_from_path env_dir_oom State.init (some "somedir/".toList)).1 = none := by
  decide

/-- C4 (amended): idempotence and determinism. If a resolution returns a
string d that names an existing directory, resolving d again returns d when
the allocation of the second result succeeds, and null when it fails. Two
resolutions of one input under the same build and filesystem return the same
result when their result allocations have the same outcome. -/
theorem manifest_dir_idempotent (env : Env) (s s2 : State) (m : Option CStr) (d : CStr) :
    ((manifest_dir_from_path env s m).1 = some d → stat_is_dir env d = true →
      (manifest_dir_from_path env s2 (some d)).1 =
        if env.malloc_ok s2.mallocs then some d else none) ∧
    (∀ env2 : Env, env2.win32 = env.win32 → env2.is_dir = env.is_dir →
      env2.malloc_ok s2.mallocs = env.malloc_ok s.mallocs →
      (manifest_dir_from_path env2 s2 m).1 = (manifest_dir_from_path env s m).1) := by
  constructor
  · intro h1 hd
    rw [manifest_dir_from_path_fst] at h1
    split at h1
    · simp only [Option.some.injEq] at h1
      have hs : starts_dot_slash d = false := by
        rw [← h1]; exact starts_dot_slash_resolved _ _ _
      rw [manifest_dir_from_path_fst, resolved_text_of_dir env d hs hd]
    · simp at h1
  · intro env2 hw hf hm
    have hst : stat_is_dir env2 = stat_is_dir env := by
      funext p; simp [stat_is_dir, hf]
    rw [manifest_dir_from_path_fst, manifest_dir_from_path_fst, hw, hst, hm]

/-- Witness of C4: with "somedir/" an existing directory, "./somedir/" resolves
to "somedir/", which resolves to itself; and a second resolution of
"./somedir/" gives the same result. -/
theorem manifest_dir_idempotent_witness :
    (manifest_dir_from_path env_dir State.init (some "somedir/".toList)).1 =
      some "somedir/".toList ∧
    (manifest_dir_from_path env_dir (manifest_dir_from_path env_dir State.init
        (some "./somedir/".toList)).2 (some "./somedir/".toList)).1 =
      (manifest_dir_from_path env_dir State.init (some "./somedir/".toList)).1 :=
  ⟨((manifest_dir_idempotent env_dir State.init State.init (some "./somedir/".toList)
      "somedir/".toList).1 (by decide) (by decide)).trans (by decide),
   (manifest_dir_idempotent env_dir State.init _ (some "./somedir/".toList)
      "somedir/".toList).2 env_dir rfl rfl (by decide)⟩

/-- C4 as stated fails when the allocation of the second result fails:
"somedir/" (an existing directory) resolves to itself, and resolving that
output in the state left by the first call returns null. -/
theorem manifest_dir_idempotent_counterexample :
    (manifest_dir_from_path env_dir_once State.init (some "somedir/".toList)).1 =
      some "somedir/".toList ∧
    stat_is_dir env_dir_once "somedir/".toList = true ∧
    (manifest_dir_from_path env_dir_once
      (manifest_dir_from_path env_dir_once State.init (some "somedir/".toList)).2
      (some "somedir/".toList)).1 = none := by
  decide

theorem emit_mallocs (s : State) (e : Event) : (s.emit e).mallocs = s.mallocs := rfl

theorem log_message_mallocs (env : Env) (s : State) (t : CStr) :
    (log_message env s t).mallocs = s.mallocs := by
  unfold log_message
  split <;> rfl

theorem generate_recipe_success (env : Env) (s : State) (ptr : autotools_generator)
    (pm cfg mp hp : Option CStr) (ed : Bool) (vj : Option CStr)
    (out : Option GeneratedRecipe) (r0 : IntermediateRecipe)
    (h1 : env.recipe_new = some r0) (h2 : env.malloc_ok s.mallocs = true)
    (h3 : env.generated_new_ok = true) :
    (autotools_generate_recipe env s ptr pm cfg mp hp ed vj out).error = none ∧
    (autotools_generate_recipe env s ptr pm cfg mp hp ed vj out).out =
      some (success_envelope (resolved_text env.win32 (stat_is_dir env) mp)) := by
  have hd : (manifest_dir_from_path env (s.emit (Event.recipe_new env.recipe_new.isSome)) mp).1 =
      some (resolved_text env.win32 (stat_is_dir env) mp) := by
    rw [manifest_dir_from_path_fst, emit_mallocs, h2]; rfl
  unfold autotools_generate_recipe
  simp only [pbb_intermediate_recipe_new]
  split
  · rename_i h; rw [h1] at h; cases h
  · rename_i recipe0 h
    split
    · rename_i h'; rw [hd] at h'; cases h'
    · rename_i sd h'
      rw [hd] at h'; cases h'
      simp only [pbb_generated_recipe_new_empty, h3, if_true]
      refine ⟨trivial, ?_⟩
      rw [h1] at h; cases h; rfl

theorem generate_recipe_recipe_fails (env : Env) (s : State) (ptr : autotools_generator)
    (pm cfg mp hp : Option CStr) (ed : Bool) (vj : Option CStr)
    (out : Option GeneratedRecipe) (h1 : env.recipe_new = none) :
    (autotools_generate_recipe env s ptr pm cfg mp hp ed vj out).error =
      (if env.malloc_ok s.mallocs then
        some "autotools: failed to allocate intermediate recipe".toList else none) ∧
    (autotools_generate_recipe env s ptr pm cfg mp hp ed vj out).out = out := by
  unfold autotools_generate_recipe
  simp only [pbb_intermediate_recipe_new]
  split
  · simp only [dup_cstr, malloc, State.emit]
    split <;> simp_all
  · rename_i r h; rw [h1] at h; cases h

theorem resources_emit (s : State) (e : Event) :
    resources (s.emit e).trace = resources s.trace ++ (if is_resource e then [e] else []) := by
  simp only [resources, State.emit, List.filter_append]
  cases h : is_resource e <;> simp [List.filter, h]

theorem resources_log_message (env : Env) (s : State) (t : CStr) :
    resources (log_message env s t).trace = resources s.trace := by
  unfold log_message
  split
  · simp [State.emit, resources, List.filter_append, List.filter, is_resource]
  · rfl

theorem resources_malloc (env : Env) (s : State) (n : Nat) :
    resources (malloc env s n).2.trace = resources s.trace := by
  simp [malloc, resources, List.filter_append, List.filter, is_resource]

theorem resources_dup_cstr (env : Env) (s : State) (m : CStr) :
    resources (dup_cstr env s m).2.trace = resources s.trace := by
  simp only [dup_cstr]
  split <;> exact resources_malloc env s _

theorem resources_manifest_dir (env : Env) (s : State) (m : Option CStr) :
    resources (manifest_dir_from_path env s m).2.trace = resources s.trace := by
  unfold manifest_dir_from_path
  split
  · exact resources_dup_cstr _ _ _
  · exact resources_dup_cstr _ _ _
  · simp only
    split
    · exact resources_dup_cstr _ _ _
    · split
      · exact resources_dup_cstr _ _ _
      · split
        · exact resources_dup_cstr _ _ _
        · split <;> exact resources_malloc env s _

theorem dup_cstr_fst (env : Env) (s : State) (m : CStr) :
    (dup_cstr env s m).1 = if env.malloc_ok s.mallocs then some m else none := by
  simp only [dup_cstr, malloc]
  split <;> simp_all

theorem dup_cstr_mallocs (env : Env) (s : State) (m : CStr) :
    (dup_cstr env s m).2.mallocs = s.mallocs + 1 := by
  simp only [dup_cstr, malloc]
  split <;> rfl

theorem generate_recipe_recipe_fails_resources (env : Env) (s : State)
    (ptr : autotools_generator) (pm cfg mp hp : Option CStr) (ed : Bool) (vj : Option CStr)
    (out : Option GeneratedRecipe) (h1 : env.recipe_new = none) :
    resources (autotools_generate_recipe env s ptr pm cfg mp hp ed vj out).state.trace =
      resources s.trace := by
  unfold autotools_generate_recipe
  simp only [pbb_intermediate_recipe_new]
  split
  · simp [resources_dup_cstr, resources_emit, h1, is_resource]
  · rename_i r h; rw [h1] at h; cases h

theorem generate_recipe_resolve_fails (env : Env) (s : State) (ptr : autotools_generator)
    (pm cfg mp hp : Option CStr) (ed : Bool) (vj : Option CStr)
    (out : Option GeneratedRecipe) (r0 : IntermediateRecipe)
    (h1 : env.recipe_new = some r0) (h2 : env.malloc_ok s.mallocs = false) :
    (autotools_generate_recipe env s ptr pm cfg mp hp ed vj out).error =
      (if env.malloc_ok (s.mallocs + 1) then
        some "autotools: failed to determine source directory".toList else none) ∧
    (autotools_generate_recipe env s ptr pm cfg mp hp ed vj out).out = out ∧
    resources (autotools_generate_recipe env s ptr pm cfg mp hp ed vj out).state.trace =
      resources s.trace ++ [Event.recipe_new true, Event.recipe_release] := by
  have hd : (manifest_dir_from_path env (s.emit (Event.recipe_new env.recipe_new.isSome)) mp).1 =
      none := by
    rw [manifest_dir_from_path_fst, emit_mallocs, h2]; rfl
  unfold autotools_generate_recipe
  simp only [pbb_intermediate_recipe_new]
  split
  · rename_i h; rw [h1] at h; cases h
  · split
    · refine ⟨?_, rfl, ?_⟩
      · simp only [dup_cstr_fst, pbb_intermediate_recipe_release, emit_mallocs,
          manifest_dir_from_path_mallocs]
      · simp [resources_dup_cstr, pbb_intermediate_recipe_release, resources_emit,
          resources_manifest_dir, h1, is_resource]
    · rename_i sd h'; rw [hd] at h'; cases h'

theorem generate_recipe_envelope_fails (env : Env) (s : State) (ptr : autotools_generator)
    (pm cfg mp hp : Option CStr) (ed : Bool) (vj : Option CStr)
    (out : Option GeneratedRecipe) (r0 : IntermediateRecipe)
    (h1 : env.recipe_new = some r0) (h2 : env.malloc_ok s.mallocs = true)
    (h3 : env.generated_new_ok = false) :
    (autotools_generate_recipe env s ptr pm cfg mp hp ed vj out).error =
      (if env.malloc_ok (s.mallocs + 1) then
        some "autotools: failed to allocate generated recipe".toList else none) ∧
    (autotools_generate_recipe env s ptr pm cfg mp hp ed vj out).out = out ∧
    resources (autotools_generate_recipe env s ptr pm cfg mp hp ed vj out).state.trace =
      resources s.trace ++ [Event.recipe_new true, Event.recipe_release] := by
  have hd : (manifest_dir_from_path env (s.emit (Event.recipe_new env.recipe_new.isSome)) mp).1 =
      some (resolved_text env.win32 (stat_is_dir env) mp) := by
    rw [manifest_dir_from_path_fst, emit_mallocs, h2]; rfl
  unfold autotools_generate_recipe
  simp only [pbb_intermediate_recipe_new]
  split
  · rename_i h; rw [h1] at h; cases h
  · split
    · rename_i h'; rw [hd] at h'; cases h'
    · simp only [pbb_generated_recipe_new_empty, h3, Bool.false_eq_true, if_false]
      generalize env.to_yaml _ = y
      refine ⟨?_, trivial, ?_⟩
      · simp only [dup_cstr_fst, pbb_intermediate_recipe_release, emit_mallocs]
        cases y <;>
          simp only [emit_mallocs, log_message_mallocs, manifest_dir_from_path_mallocs]
      · simp only [resources_dup_cstr, pbb_intermediate_recipe_release, resources_emit]
        cases y <;>
          simp only [resources_emit, resources_log_message, resources_manifest_dir, h1,
            is_resource, Option.isSome_some, List.append_nil, List.append_assoc,
            List.singleton_append, if_true, Bool.false_eq_true, if_false, List.cons_append,
            List.nil_append]

theorem generate_recipe_success_resources (env : Env) (s : State) (ptr : autotools_generator)
    (pm cfg mp hp : Option CStr) (ed : Bool) (vj : Option CStr)
    (out : Option GeneratedRecipe) (r0 : IntermediateRecipe)
    (h1 : env.recipe_new = some r0) (h2 : env.malloc_ok s.mallocs = true)
    (h3 : env.generated_new_ok = true) :
    resources (autotools_generate_recipe env s ptr pm cfg mp hp ed vj out).state.trace =
      resources s.trace ++ [Event.recipe_new true, Event.generated_new true] := by
  have hd : (manifest_dir_from_path env (s.emit (Event.recipe_new env.recipe_new.isSome)) mp).1 =
      some (resolved_text env.win32 (stat_is_dir env) mp) := by
    rw [manifest_dir_from_path_fst, emit_mallocs, h2]; rfl
  unfold autotools_generate_recipe
  simp only [pbb_intermediate_recipe_new]
  split
  · rename_i h; rw [h1] at h; cases h
  · split
    · rename_i h'; rw [hd] at h'; cases h'
    · simp only [pbb_generated_recipe_new_empty, h3, if_true, resources_log_message,
        resources_emit]
      generalize env.to_yaml _ = y
      cases y <;>
        simp only [resources_emit, resources_log_message, resources_manifest_dir, h1,
          is_resource, Option.isSome_some, List.append_nil, List.append_assoc,
          List.singleton_append, if_true, Bool.false_eq_true, if_false, List.cons_append,
          List.nil_append]

theorem glob_match_double_star (s : CStr) : glob_match "**".toList s = true := by
  show glob_match ['*', '*'] s = true
  unfold glob_match
  simp only [List.any_eq_true]
  refine ⟨[], ?_, ?_⟩
  · simp [List.mem_tails]
  · simp [glob_match]

theorem glob_match_literal (pat s : CStr) (h : ∀ c ∈ pat, c ≠ '*' ∧ c ≠ '?') :
    glob_match pat s = true ↔ s = pat := by
  induction pat generalizing s with
  | nil => cases s <;> simp [glob_match]
  | cons a p ih =>
    have ha := h a (List.mem_cons_self a p)
    have hp : ∀ c ∈ p, c ≠ '*' ∧ c ≠ '?' := fun c hc => h c (List.mem_cons_of_mem a hc)
    cases s with
    | nil =>
      unfold glob_match
      split <;> simp_all
    | cons c t =>
      unfold glob_match
      split
      · simp_all
      · simp_all
      · simp_all
      · simp_all
      · rename_i heq1 heq2
        simp only [List.cons.injEq] at heq1 heq2
        obtain ⟨rfl, rfl⟩ := heq1
        obtain ⟨rfl, rfl⟩ := heq2
        simp only [Bool.and_eq_true, beq_iff_eq, ih t hp, List.cons.injEq]
        constructor
        · rintro ⟨rfl, rfl⟩; exact ⟨rfl, rfl⟩
        · rintro ⟨rfl, rfl⟩; exact ⟨rfl, rfl⟩
      · rename_i heq2
        cases heq2

theorem glob_match_pixi_toml (f : CStr) :
    glob_match "pixi.toml".toList f = true ↔ f = "pixi.toml".toList :=
  glob_match_literal "pixi.toml".toList f (by decide)

/-- C5 (code defect): when the intermediate recipe cannot be allocated and the
`malloc` of the error message fails too, `autotools_generate_recipe` returns a
null error although it wrote no envelope: the out-parameter, null before the
call, is still null. -/
theorem generate_recipe_null_error_without_envelope :
    (autotools_generate_recipe env_recipe_oom State.init {} none none
        (some "pixi.toml".toList) none false none none).error = none ∧
    (autotools_generate_recipe env_recipe_oom State.init {} none none
        (some "pixi.toml".toList) none false none none).out = none := by
  decide

/-- C6 (code defect): when source-directory resolution fails (its `malloc`
fails) and the `malloc` of the error message fails too, the call releases the
recipe once and leaves the out-parameter untouched, but returns a null error
string instead of a non-null one. -/
theorem generate_recipe_failure_returns_null_error :
    (manifest_dir_from_path env_oom State.init (some "a/pixi.toml".toList)).1 = none ∧
    (autotools_generate_recipe env_oom State.init {} none none
        (some "a/pixi.toml".toList) none false none none).error = none ∧
    (autotools_generate_recipe env_oom State.init {} none none
        (some "a/pixi.toml".toList) none false none none).out = none ∧
    resources (autotools_generate_recipe env_oom State.init {} none none
        (some "a/pixi.toml".toList) none false none none).state.trace =
      [Event.recipe_new true, Event.recipe_release] := by
  decide

/-- C7 (amended): in every call whose three allocations succeed (recipe,
resolved source directory, envelope), whatever the manifest path, the envelope
written to the out-parameter has the build-glob list ["**"], and "**" matches
every path; its metadata-glob list is the fixed list ["pixi.toml"], a pattern
that matches a file exactly when the file is named "pixi.toml". -/
theorem generate_recipe_globs (env : Env) (s : State) (ptr : autotools_generator)
    (pm cfg mp hp : Option CStr) (ed : Bool) (vj : Option CStr)
    (out : Option GeneratedRecipe)
    (h1 : env.recipe_new.isSome = true) (h2 : env.malloc_ok s.mallocs = true)
    (h3 : env.generated_new_ok = true) :
    ∃ g, (autotools_generate_recipe env s ptr pm cfg mp hp ed vj out).out = some g ∧
      g.build_globs = ["**".toList] ∧ (∀ path, glob_match "**".toList path = true) ∧
      g.metadata_globs = ["pixi.toml".toList] ∧
      (∀ file, glob_match "pixi.toml".toList file = true ↔ file = "pixi.toml".toList) := by
  obtain ⟨r0, hr⟩ := Option.isSome_iff_exists.mp h1
  exact ⟨_, (generate_recipe_success env s ptr pm cfg mp hp ed vj out r0 hr h2 h3).2, rfl,
    glob_match_double_star, rfl, glob_match_pixi_toml⟩

/-- Witness of C7: the call for the manifest "manifest.toml" succeeds and
declares the globs "**" and "pixi.toml". -/
theorem generate_recipe_globs_witness :
    ∃ g, (autotools_generate_recipe env_ok State.init {} none none
        (some "manifest.toml".toList) none false none none).out = some g ∧
      g.build_globs = ["**".toList] ∧ (∀ path, glob_match "**".toList path = true) ∧
      g.metadata_globs = ["pixi.toml".toList] ∧
      (∀ file, glob_match "pixi.toml".toList file = true ↔ file = "pixi.toml".toList) :=
  generate_recipe_globs env_ok State.init {} none none (some "manifest.toml".toList) none
    false none none (by decide) (by decide) (by decide)

/-- C7 as stated fails: the successful call for the manifest "manifest.toml"
(source directory ".", so the manifest is the file "manifest.toml" of the
source tree) returns an envelope none of whose metadata globs matches
"manifest.toml": the only one is the literal "pixi.toml". -/
theorem generate_recipe_globs_counterexample :
    (autotools_generate_recipe env_ok State.init {} none none
        (some "manifest.toml".toList) none false none none).error = none ∧
    ∃ g, (autotools_generate_recipe env_ok State.init {} none none
        (some "manifest.toml".toList) none false none none).out = some g ∧
      g.metadata_globs.any (fun pat => glob_match pat "manifest.toml".toList) = false :=
  ⟨by decide, _, rfl, by decide⟩

/-- C8: for every generator state and every input, `autotools_extract_input_globs`
and `autotools_default_variants` return a null error, set the out-parameter to
null and leave the generator state (and the program state) unchanged. -/
theorem declined_operations (s : State) (ptr : autotools_generator)
    (config_json workdir host_platform : Option CStr) (editable : Bool)
    (out_globs out_variants : Option CStr) :
    (autotools_extract_input_globs s ptr config_json workdir editable out_globs).error = none ∧
    (autotools_extract_input_globs s ptr config_json workdir editable out_globs).out =
      (none, ptr) ∧
    (autotools_extract_input_globs s ptr config_json workdir editable out_globs).state = s ∧
    (autotools_default_variants s ptr host_platform out_variants).error = none ∧
    (autotools_default_variants s ptr host_platform out_variants).out = (none, ptr) ∧
    (autotools_default_variants s ptr host_platform out_variants).state = s :=
  ⟨rfl, rfl, rfl, rfl, rfl, rfl⟩

theorem log_message_trace (env : Env) (s : State) (t : CStr) :
    (log_message env s t).trace =
      s.trace ++ (if env.fopen_ok s.fopens then [Event.log (t ++ ['\n'])] else []) := by
  unfold log_message
  split
  · rfl
  · simp

/-- C9: handle construction failure in `main`. With the generator state
allocated: when `pbb_generator_new` fails, `main` exits with `EXIT_FAILURE`
(non-zero), releases the state exactly once and never calls the dispatcher;
when `pbb_generator_new` succeeds, `main` itself never releases the state. -/
theorem main_handle_construction (env : Env) (s : State) (argv : List CStr)
    (hstate : env.calloc_ok = true) :
    (env.generator_new_ok = false →
      (main env s argv).1 = EXIT_FAILURE ∧ (main env s argv).1 ≠ 0 ∧
      (main_events env s argv).count Event.state_release = 1 ∧
      (∀ args, (main_events env s argv).count (Event.cli_run args) = 0)) ∧
    (env.generator_new_ok = true →
      (main_events env s argv).count Event.state_release = 0) := by
  constructor
  · intro hg
    have htr : (main env s argv).2.trace = s.trace ++
        ((if env.fopen_ok s.fopens then
            [Event.log ("pixi-build-autotools backend starting (argc=".toList ++
              (Nat.repr argv.length).toList ++ ")".toList ++ ['\n'])] else []) ++
          [Event.state_calloc true, Event.generator_new false,
            Event.stderr "autotools: failed to create generator handle\n".toList,
            Event.state_release]) := by
      simp only [main, hstate, hg, autotools_generator_release, State.emit, log_message_trace,
        Bool.not_true, Bool.not_false, Bool.false_eq_true, if_false, if_true,
        List.append_assoc, List.singleton_append, List.cons_append, List.nil_append]
    refine ⟨?_, ?_, ?_, ?_⟩
    · simp only [main, hstate, hg, Bool.not_true, Bool.not_false, Bool.false_eq_true,
        if_false, if_true]
    · simp only [main, hstate, hg, Bool.not_true, Bool.not_false, Bool.false_eq_true,
        if_false, if_true]
      decide
    · rw [main_events, htr, List.drop_left]
      split <;> simp [List.count_cons]
    · intro args
      rw [main_events, htr, List.drop_left]
      split <;> simp [List.count_cons]
  · intro hg
    have hev : ∀ t : List Event, t.count Event.state_release = 0 ↔
        Event.state_release ∉ t := fun t => List.count_eq_zero
    rw [hev, main_events]
    simp only [main, hstate, hg, Bool.not_true, Bool.false_eq_true, if_false]
    cases env.cli_run argv <;>
      simp [State.emit, log_message_trace, List.drop_append_eq_append_drop]

/-- Witness of C9: with the state allocated and `pbb_generator_new` failing,
`main` exits with `EXIT_FAILURE` after releasing the state once. -/
theorem main_handle_construction_witness :
    (main env_no_handle State.init ["pixi-build-autotools".toList]).1 = EXIT_FAILURE ∧
    (main_events env_no_handle State.init ["pixi-build-autotools".toList]).count
      Event.state_release = 1 ∧
    (main_events env_ok State.init ["pixi-build-autotools".toList]).count
      Event.state_release = 0 :=
  ⟨((main_handle_construction env_no_handle State.init ["pixi-build-autotools".toList]
      rfl).1 rfl).1,
   ((main_handle_construction env_no_handle State.init ["pixi-build-autotools".toList]
      rfl).1 rfl).2.2.1,
   (main_handle_construction env_ok State.init ["pixi-build-autotools".toList] rfl).2 rfl⟩

/-- C10: allocation is the only way recipe generation can fail. When no
allocation fails, for every manifest path (null, empty or any string) and
every filesystem, `manifest_dir_from_path` returns a string d, and
`autotools_generate_recipe` returns a null error, writes to the out-parameter
the envelope built for d, releases nothing, and its whole result is the same
for all values of project_model_json, config_json, host_platform, editable and
variants_json. -/
theorem generate_recipe_total (env : Env) (s : State) (ptr : autotools_generator)
    (pm cfg mp hp : Option CStr) (ed : Bool) (vj : Option CStr)
    (out : Option GeneratedRecipe)
    (hm : ∀ n, env.malloc_ok n = true) (hr : env.recipe_new.isSome = true)
    (hg : env.generated_new_ok = true) :
    (∃ d, (manifest_dir_from_path env s mp).1 = some d ∧
      (autotools_generate_recipe env s ptr pm cfg mp hp ed vj out).out =
        some (success_envelope d)) ∧
    (autotools_generate_recipe env s ptr pm cfg mp hp ed vj out).error = none ∧
    resources (autotools_generate_recipe env s ptr pm cfg mp hp ed vj out).state.trace =
      resources s.trace ++ [Event.recipe_new true, Event.generated_new true] ∧
    (∀ (pm2 cfg2 hp2 : Option CStr) (ed2 : Bool) (vj2 : Option CStr),
      autotools_generate_recipe env s ptr pm2 cfg2 mp hp2 ed2 vj2 out =
        autotools_generate_recipe env s ptr pm cfg mp hp ed vj out) := by
  obtain ⟨r0, hr0⟩ := Option.isSome_iff_exists.mp hr
  have h := generate_recipe_success env s ptr pm cfg mp hp ed vj out r0 hr0 (hm _) hg
  refine ⟨⟨_, ?_, h.2⟩, h.1,
    generate_recipe_success_resources env s ptr pm cfg mp hp ed vj out r0 hr0 (hm _) hg,
    fun _ _ _ _ _ => rfl⟩
  rw [manifest_dir_from_path_fst, hm]
  rfl

/-- Witness of C10: with every allocation succeeding, the call for the
manifest "./a/b/manifest.toml" returns a null error and the envelope for the
source directory "a/b". -/
theorem generate_recipe_total_witness :
    (autotools_generate_recipe env_ok State.init {} none none
        (some "./a/b/manifest.toml".toList) none false none none).error = none ∧
    (autotools_generate_recipe env_ok State.init {} none none
        (some "./a/b/manifest.toml".toList) none false none none).out =
      some (success_envelope "a/b".toList) :=
  ⟨(generate_recipe_total env_ok State.init {} none none (some "./a/b/manifest.toml".toList)
      none false none none (fun _ => rfl) rfl rfl).2.1,
   by decide⟩

end Autotools
